import Mathlib

/-!
Verification development for the Drag3D interactive viewer (`gui.py`).

We shallowly embed the parts of the program that the specification talks
about: the adaptive train-step scheduler (`GUI.train_step`), the orbit
camera (`OrbitCamera`), the per-pixel shading computations of
`GUI.test_step`, and the frame/mesh state handling of `GUI.test_step` and
the save-mesh callback.  Machine floats are idealised as rationals or
reals; where IEEE non-finite values matter we use `Option ℝ` with `none`
playing the role of NaN (which is absorbing for the arithmetic used here).
Python runtime errors (ZeroDivisionError, AttributeError) are modelled as
`none` / `Except.error` results.
-/

namespace Drag3D

/-! ### Adaptive step scheduler — `GUI.train_step`, gui.py lines 184-206

The code:
```
full_t = t / self.train_steps * 16
train_steps = min(16, max(4, int(16 * 500 / full_t)))
if train_steps > self.train_steps * 1.2 or train_steps < self.train_steps * 0.8:
    self.train_steps = train_steps
```
-/

/-- Python `int()` applied to a (real-valued) number: truncation toward zero. -/
def pyInt (q : ℚ) : ℤ := if 0 ≤ q then ⌊q⌋ else ⌈q⌉

/-- The scheduler update of `GUI.train_step` (gui.py lines 201-206), as a
function of the current `self.train_steps` (which is also the number of
units that were just processed) and the measured duration `t` in ms.
`none` models a Python `ZeroDivisionError`: the code divides by
`self.train_steps` and then by `full_t` with no guard, so it raises when
`train_steps = 0` or when `full_t = 0` (i.e. `t = 0`). -/
def train_step_update (train_steps : ℤ) (t : ℚ) : Option ℤ :=
  if train_steps = 0 then none
  else
    let full_t : ℚ := t / (train_steps : ℚ) * 16
    if full_t = 0 then none
    else
      let cand : ℤ := min 16 (max 4 (pyInt (16 * 500 / full_t)))
      if (cand : ℚ) > (train_steps : ℚ) * (6 / 5) ∨ (cand : ℚ) < (train_steps : ℚ) * (4 / 5)
      then some cand
      else some train_steps

/-- The candidate formula exactly as claim C1 states it, with rounding to
the nearest integer in place of the code's `int()` truncation.  Stated
from the claim's words, for comparison with `train_step_update`. -/
def claim_candidate_round (unit_size : ℤ) (t : ℚ) : ℤ :=
  min 16 (max 4 (round (16 * 500 / (t / (unit_size : ℚ) * 16))))

/-- The full scheduler step that claim C1 describes: the rounded candidate,
committed exactly when it deviates from the current `unit_size` by more
than ±20 %.  Stated from the claim's words. -/
def claim_sched_step (unit_size : ℤ) (t : ℚ) : ℤ :=
  let next := claim_candidate_round unit_size t
  if (next : ℚ) > (unit_size : ℚ) * (6 / 5) ∨ (next : ℚ) < (unit_size : ℚ) * (4 / 5)
  then next else unit_size

/-- Claim C1 amended: the same scheduler rule but with Python `int()`
truncation in place of rounding, and undefined (error) when the processed
unit count is zero or the measured time is zero. -/
def sched_step_trunc (unit_size : ℤ) (t : ℚ) : Option ℤ :=
  if unit_size = 0 ∨ t = 0 then none
  else
    let full_t : ℚ := t / (unit_size : ℚ) * 16
    let next : ℤ := min 16 (max 4 (pyInt (16 * 500 / full_t)))
    if (next : ℚ) > (unit_size : ℚ) * (6 / 5) ∨ (next : ℚ) < (unit_size : ℚ) * (4 / 5)
    then some next
    else some unit_size

/-! ### Orbit camera — `OrbitCamera`, gui.py lines 34-94 -/

abbrev Vec3 := Fin 3 → ℝ

abbrev Mat3 := Matrix (Fin 3) (Fin 3) ℝ

abbrev Mat4 := Matrix (Fin 4) (Fin 4) ℝ

noncomputable section

/-- `np.radians` / `np.deg2rad`: degrees to radians. -/
def radians (x : ℝ) : ℝ := x * Real.pi / 180

/-- Dot product of two 3-vectors. -/
def dot3 (v w : Vec3) : ℝ := v 0 * w 0 + v 1 * w 1 + v 2 * w 2

/-- The cross-product (skew-symmetric) matrix of a 3-vector. -/
def crossMat (a : Vec3) : Mat3 :=
  !![0, -a 2, a 1; a 2, 0, -a 0; -a 1, a 0, 0]

/-- `scipy.spatial.transform.Rotation.from_rotvec`, as a rotation matrix:
the Rodrigues formula about the axis `v / ‖v‖` by the angle `‖v‖`
(the zero vector yields the identity; scipy composition `*` is matrix
multiplication of the corresponding matrices). -/
def fromRotvec (v : Vec3) : Mat3 :=
  let angle := Real.sqrt (dot3 v v)
  let axis : Vec3 := angle⁻¹ • v
  1 + Real.sin angle • crossMat axis +
    (1 - Real.cos angle) • (crossMat axis * crossMat axis)

/-- The state of `OrbitCamera` (gui.py lines 34-44); the scipy rotation is
kept as its 3×3 matrix. -/
structure OrbitCamera where
  W : ℕ
  H : ℕ
  radius : ℝ
  fovy : ℝ
  near : ℝ
  far : ℝ
  center : Vec3
  rot : Mat3
  up : Vec3

/-- `OrbitCamera.__init__` as invoked by the GUI (gui.py line 150): W, H,
`r = opt.radius`, `fovy = opt.fovy`, with the constructor defaults
near = 0.1, far = 10, center = zeros, rot = identity, up = (0, 1, 0). -/
def OrbitCamera.init (W H : ℕ) (r f : ℝ) : OrbitCamera :=
  { W := W, H := H, radius := r, fovy := f, near := 0.1, far := 10,
    center := fun _ => 0, rot := 1, up := ![0, 1, 0] }

/-- `OrbitCamera.orbit` (gui.py lines 82-87): `side` is the first column of
the current rotation matrix, captured before the update; the new rotation
pre-multiplies the old one by the two incremental rotations. -/
def OrbitCamera.orbit (c : OrbitCamera) (dx dy : ℝ) : OrbitCamera :=
  let side : Vec3 := fun i => c.rot i 0
  { c with rot := fromRotvec (radians (-0.05 * dx) • c.up) *
      fromRotvec (radians (-0.05 * dy) • side) * c.rot }

/-- `OrbitCamera.scale` (gui.py lines 89-90): `radius *= 1.1 ** (-delta)`
(real exponentiation). -/
def OrbitCamera.scale (c : OrbitCamera) (delta : ℝ) : OrbitCamera :=
  { c with radius := c.radius * (1.1 : ℝ) ^ (-delta) }

/-- `OrbitCamera.pan` (gui.py lines 92-94):
`center += 0.0005 * rot_matrix @ (dx, -dy, dz)` (the code defaults
`dz` to 0; callers pass two arguments). -/
def OrbitCamera.pan (c : OrbitCamera) (dx dy dz : ℝ) : OrbitCamera :=
  { c with center := c.center + (0.0005 : ℝ) • c.rot.mulVec ![dx, -dy, dz] }

/-- A 4×4 translation matrix: the identity with the vector `t` in the top
of the last column. -/
def transMat (t : Vec3) : Mat4 :=
  !![1, 0, 0, t 0; 0, 1, 0, t 1; 0, 0, 1, t 2; 0, 0, 0, 1]

/-- The first stage of `OrbitCamera.pose`: `np.eye(4)` with entry (2,3)
set to the radius. -/
def transZ (r : ℝ) : Mat4 := transMat ![0, 0, r]

/-- A 3×3 matrix embedded in the rotation block of a 4×4 homogeneous
matrix (`rot[:3, :3] = ...`, gui.py lines 53-54). -/
def rot4 (A : Mat3) : Mat4 :=
  !![A 0 0, A 0 1, A 0 2, 0;
     A 1 0, A 1 1, A 1 2, 0;
     A 2 0, A 2 1, A 2 2, 0;
     0, 0, 0, 1]

/-- The entrywise effect of `res[:3, 3] -= self.center` (gui.py line 57). -/
def centerCol (t : Vec3) : Mat4 :=
  !![0, 0, 0, t 0; 0, 0, 0, t 1; 0, 0, 0, t 2; 0, 0, 0, 0]

/-- `OrbitCamera.pose` (gui.py lines 47-58): move the camera out to the
radius along +Z, rotate, then subtract the look-at center from the
translation column. -/
def OrbitCamera.pose (c : OrbitCamera) : Mat4 :=
  rot4 c.rot * transZ c.radius - centerCol c.center

/-- `OrbitCamera.view` (gui.py lines 61-63): `np.linalg.inv(self.pose)`. -/
def OrbitCamera.view (c : OrbitCamera) : Mat4 := c.pose⁻¹

/-- `OrbitCamera.perspective` (gui.py lines 72-79). -/
def OrbitCamera.perspective (c : OrbitCamera) : Mat4 :=
  let y := Real.tan (radians c.fovy / 2)
  let aspect := (c.W : ℝ) / (c.H : ℝ)
  !![1 / (y * aspect), 0, 0, 0;
     0, -1 / y, 0, 0;
     0, 0, -(c.far + c.near) / (c.far - c.near),
       -(2 * c.far * c.near) / (c.far - c.near);
     0, 0, -1, 0]

/-! ### Per-pixel shading — `GUI.test_step`, gui.py lines 230-254 -/

/-- `torch.clamp(x, 0, 1)` (applied to the antialiased albedo, line 237). -/
def clamp01 (x : ℝ) : ℝ := min 1 (max 0 x)

/-- `safe_normalize` (gui.py lines 31-32):
`x / sqrt(clamp(sum(x*x), min=1e-20))`. -/
def safe_normalize (x : Vec3) : Vec3 :=
  (Real.sqrt (max 1e-20 (dot3 x x)))⁻¹ • x

/-- The spherical-to-Cartesian light direction of the lambertian branch
(gui.py lines 246-251): angles are given in degrees and converted with
`np.deg2rad`. -/
def lightDir (theta phi : ℝ) : Vec3 :=
  ![Real.sin (radians theta) * Real.sin (radians phi),
    Real.cos (radians theta),
    Real.sin (radians theta) * Real.cos (radians phi)]

/-- The lighting factor of the lambertian branch (gui.py line 253):
`ambient_ratio + (1 - ambient_ratio) * clamp(normal · light, min=0)`. -/
def litFactor (ambient : ℝ) (n l : Vec3) : ℝ :=
  ambient + (1 - ambient) * max 0 (dot3 n l)

/-- One pixel of the albedo-mode buffer (gui.py lines 234-239): the input
`a` is the texture value after background removal and antialiasing; the
code clamps it to [0, 1]. -/
def albedoModePixel (a : Fin 3 → ℝ) : Fin 3 → ℝ := fun i => clamp01 (a i)

/-- One pixel of the normal-mode buffer (gui.py lines 241-244): the
interpolated normal `x` is renormalized and remapped with `(n + 1) / 2`. -/
def normalModePixel (x : Vec3) : Fin 3 → ℝ :=
  fun i => (safe_normalize x i + 1) / 2

/-- One pixel of the lambertian-mode buffer (gui.py lines 245-254): the
clamped albedo multiplied per channel by the lighting factor of the
renormalized normal and the light direction. -/
def lambertianModePixel (ambient : ℝ) (a : Fin 3 → ℝ) (x : Vec3)
    (theta phi : ℝ) : Fin 3 → ℝ :=
  fun i => albedoModePixel a i *
    litFactor ambient (safe_normalize x) (lightDir theta phi)

/-- One pixel of the depth-mode buffer (gui.py lines 230-232): the raw
rasterizer clip-space depth broadcast to the three channels. -/
def depthModePixel (z : ℝ) : Fin 3 → ℝ := fun _ => z

/-- Clip-space coordinates of a camera-space point under the projection
matrix (the `proj` factor of the `mvp` product, gui.py lines 220-226). -/
def clipVec (c : OrbitCamera) (p : Fin 4 → ℝ) : Fin 4 → ℝ :=
  c.perspective.mulVec p

/-- Modelled from the spec: the external rasterizer (`nvdiffrast`, not in
this repository) records per pixel the clip-space depth `z/w` of the
covered geometry; this is the channel the depth mode displays. -/
def clipDepth (c : OrbitCamera) (p : Fin 4 → ℝ) : ℝ :=
  clipVec c p 2 / clipVec c p 3

/-- The shape of `np.zeros((self.W, self.H, 3))` — the startup color
buffer of gui.py line 152. -/
def render_buffer_init_shape (W H : ℕ) : ℕ × ℕ × ℕ := (W, H, 3)

/-- The startup color buffer itself: all zeros. -/
def render_buffer_init (W H : ℕ) : Fin W → Fin H → Fin 3 → ℝ :=
  fun _ _ _ => 0

/-- The resolution `(self.H, self.W)` passed to the rasterizer at gui.py
line 228; every shading branch derives an (H, W, 3) buffer from it. -/
def rendered_buffer_shape (W H : ℕ) : ℕ × ℕ × ℕ := (H, W, 3)

/-! ### Frame state, missing mesh — `GUI.test_step` / `callback_save_mesh` -/

/-- The slice of `GUI` state that `test_step` touches: the current mesh
(if any), the color buffer, and the dirty flag. -/
structure GuiFrame (M B : Type) where
  mesh : Option M
  render_buffer : B
  need_update : Bool

/-- `GUI.test_step` (gui.py lines 209-264) at the state level: when not
dirty nothing happens; when dirty but no mesh is loaded the method
returns early, leaving the buffer and the flag untouched; otherwise the
pipeline (abstracted as `render`) recomputes the buffer and clears the
flag. -/
def test_step {M B : Type} (render : M → B) (s : GuiFrame M B) : GuiFrame M B :=
  if s.need_update then
    match s.mesh with
    | none => s
    | some m => { s with render_buffer := render m, need_update := false }
  else s

/-- `callback_save_mesh` (gui.py lines 324-327): `self.mesh.write(...)` is
called unconditionally, so a missing mesh is a Python `AttributeError`
(attribute access on `None`), modelled as `Except.error`. -/
def callback_save_mesh {M : Type} (write : M → Unit) (mesh : Option M) :
    Except String Unit :=
  match mesh with
  | none => Except.error "AttributeError: NoneType object has no attribute write"
  | some m => Except.ok (write m)

/-! ### IEEE non-finite inputs (claim C3): `Option ℝ` with `none` = NaN -/

/-- IEEE addition with NaN (`none`) absorbing. -/
def fAdd (a b : Option ℝ) : Option ℝ := Option.map₂ (· + ·) a b

/-- IEEE multiplication with NaN absorbing (`NaN * x = NaN` for every
`x`). -/
def fMul (a b : Option ℝ) : Option ℝ := Option.map₂ (· * ·) a b

/-- IEEE negation of a possibly-NaN value. -/
def fNeg (a : Option ℝ) : Option ℝ := Option.map (fun x => -x) a

/-- IEEE power: a NaN exponent produces NaN. -/
def fPow (a b : Option ℝ) : Option ℝ := Option.map₂ (fun x y => x ^ y) a b

/-- `OrbitCamera.scale` on Python floats: `radius * 1.1 ** (-delta)` where
`none` is NaN.  There is no finiteness check in the code. -/
def scaleFloat (radius delta : Option ℝ) : Option ℝ :=
  fMul radius (fPow (some 1.1) (fNeg delta))

/-- One component of `OrbitCamera.pan` on Python floats:
`center[i] + 0.0005 * (rot[i,0]*dx + rot[i,1]*(-dy) + rot[i,2]*dz)` with
`none` as NaN.  There is no finiteness check in the code. -/
def panFloat (rotM : Mat3) (center : Fin 3 → Option ℝ) (dx dy dz : Option ℝ) :
    Fin 3 → Option ℝ :=
  fun i => fAdd (center i)
    (fMul (some 0.0005)
      (fAdd (fAdd (fMul (some (rotM i 0)) dx) (fMul (some (rotM i 1)) (fNeg dy)))
        (fMul (some (rotM i 2)) dz)))

end

/-! ## Theorems -/

/-- `pyInt` on an integer is that integer. -/
theorem pyInt_intCast (n : ℤ) : pyInt (n : ℚ) = n := by
  unfold pyInt
  split <;> simp

/-- Evaluation helper: the scheduler's committed branch. -/
theorem train_step_update_commit (us : ℤ) (t : ℚ) (hus : ¬us = 0) (ht : ¬t = 0)
    (c : ℤ) (hc : min 16 (max 4 (pyInt (16 * 500 / (t / (us : ℚ) * 16)))) = c)
    (hcom : (c : ℚ) > (us : ℚ) * (6 / 5) ∨ (c : ℚ) < (us : ℚ) * (4 / 5)) :
    train_step_update us t = some c := by
  have husQ : (us : ℚ) ≠ 0 := Int.cast_ne_zero.mpr hus
  have hft : t / (us : ℚ) * 16 ≠ 0 := mul_ne_zero (div_ne_zero ht husQ) (by norm_num)
  simp only [train_step_update]
  rw [if_neg hus, if_neg hft, hc, if_pos hcom]

/-- Claim C1 (amended): after a background invocation that processed
`unit_size` units in `t` ms, the committed value follows the truncating
candidate rule `min(16, max(4, int(16*500/full_t)))` with the ±20 %
hysteresis band; in particular at `unit_size = 16`, `t = 1000` ms the new
unit size is 8. -/
theorem train_step_update_trunc_rule (us : ℤ) (t : ℚ) :
    train_step_update us t = sched_step_trunc us t ∧
      train_step_update 16 1000 = some 8 := by
  constructor
  · by_cases hus : us = 0
    · simp [train_step_update, sched_step_trunc, hus]
    · by_cases ht : t = 0
      · simp [train_step_update, sched_step_trunc, hus, ht]
      · have husQ : (us : ℚ) ≠ 0 := Int.cast_ne_zero.mpr hus
        have hft : t / (us : ℚ) * 16 ≠ 0 :=
          mul_ne_zero (div_ne_zero ht husQ) (by norm_num)
        have hor : ¬(us = 0 ∨ t = 0) := by simp [hus, ht]
        simp only [train_step_update, sched_step_trunc]
        rw [if_neg hus, if_neg hor, if_neg hft]
  · refine train_step_update_commit 16 1000 (by norm_num) (by norm_num) 8 ?_ ?_
    · have harg : (16 : ℚ) * 500 / ((1000 : ℚ) / ((16 : ℤ) : ℚ) * 16) = ((8 : ℤ) : ℚ) := by
        push_cast
        norm_num
      rw [harg, pyInt_intCast]
      decide
    · right
      push_cast
      norm_num

/-- Counterexample to claim C1 as stated: at `unit_size = 16` and
`t = 1066` ms the code truncates `16*500/1066 ≈ 7.5047` to 7 and commits
7, while the claim's rounded formula predicts a committed unit size of 8. -/
theorem train_step_round_counterexample :
    train_step_update 16 1066 = some 7 ∧ claim_sched_step 16 1066 = 8 ∧
      (7 : ℤ) ≠ 8 := by
  refine ⟨?_, ?_, by decide⟩
  · refine train_step_update_commit 16 1066 (by norm_num) (by norm_num) 7 ?_ ?_
    · have harg : (16 : ℚ) * 500 / ((1066 : ℚ) / ((16 : ℤ) : ℚ) * 16) = 4000 / 533 := by
        push_cast
        norm_num
      rw [harg]
      have hpy : pyInt ((4000 : ℚ) / 533) = 7 := by
        unfold pyInt
        rw [if_pos (by norm_num)]
        rw [Int.floor_eq_iff]
        norm_num
      rw [hpy]
      decide
    · right
      push_cast
      norm_num
  · unfold claim_sched_step claim_candidate_round
    have harg : (16 : ℚ) * 500 / ((1066 : ℚ) / ((16 : ℤ) : ℚ) * 16) = 4000 / 533 := by
      push_cast
      norm_num
    rw [harg]
    have hr : round ((4000 : ℚ) / 533) = 8 := by
      rw [round_eq]
      rw [Int.floor_eq_iff]
      norm_num
    rw [hr]
    have hm : min (16 : ℤ) (max 4 8) = 8 := by decide
    rw [hm, if_pos]
    right
    push_cast
    norm_num

/-- Claim C2 amended: the code contains no guard for zero units or
non-positive times.  With `train_steps = 0` the division `t / train_steps`
raises (modelled as `none`); with `t = 0` the division by `full_t = 0`
raises; and with a negative `t` the candidate collapses to the lower
bound 4, which (at `unit_size = 16`) is committed instead of the previous
value being retained. -/
theorem train_step_no_skip_guard (us : ℤ) (t : ℚ) (hus : us ≠ 0) (ht : t < 0) :
    train_step_update 0 t = none ∧ train_step_update us 0 = none ∧
      train_step_update 16 t = some 4 := by
  refine ⟨by simp [train_step_update], by simp [train_step_update, hus], ?_⟩
  have htne : t ≠ 0 := ne_of_lt ht
  have hq : (16 * 500 : ℚ) / t < 0 :=
    div_neg_of_pos_of_neg (by norm_num) ht
  have hpy : pyInt (16 * 500 / t) = ⌈(16 * 500 : ℚ) / t⌉ := by
    simp [pyInt, not_le.mpr hq]
  have hle : ⌈(16 * 500 : ℚ) / t⌉ ≤ (0 : ℤ) := by
    rw [Int.ceil_le]
    push_cast
    exact hq.le
  have hcand : min (16 : ℤ) (max 4 (pyInt (16 * 500 / t))) = 4 := by
    rw [hpy, max_eq_left (hle.trans (by norm_num))]
    decide
  refine train_step_update_commit 16 t (by norm_num) htne 4 ?_ ?_
  · have hft : t / ((16 : ℤ) : ℚ) * 16 = t := by
      push_cast
      exact div_mul_cancel₀ t (by norm_num)
    rw [hft]
    exact hcand
  · right
    push_cast
    norm_num

/-- Counterexample to claim C2 as stated: invoked at `unit_size = 16` with
the non-positive measured duration `t = -1000` ms, the scheduler does not
retain the previous unit size — it commits the clamped lower bound 4. -/
theorem train_step_guard_counterexample :
    train_step_update 16 (-1000) = some 4 ∧ some (4 : ℤ) ≠ some (16 : ℤ) := by
  refine ⟨?_, by decide⟩
  refine train_step_update_commit 16 (-1000) (by norm_num) (by norm_num) 4 ?_ ?_
  · have hft : (-1000 : ℚ) / ((16 : ℤ) : ℚ) * 16 = -1000 := by
      push_cast
      norm_num
    rw [hft]
    have harg : (16 : ℚ) * 500 / (-1000) = ((-8 : ℤ) : ℚ) := by
      push_cast
      norm_num
    rw [harg, pyInt_intCast]
    decide
  · right
    push_cast
    norm_num

/-- Witness for `train_step_no_skip_guard` at `us = 16`, `t = -1000`. -/
theorem train_step_no_skip_guard_witness :
    (16 : ℤ) ≠ 0 ∧ (-1000 : ℚ) < 0 ∧
      (train_step_update 0 (-1000) = none ∧ train_step_update 16 0 = none ∧
        train_step_update 16 (-1000) = some 4) :=
  ⟨by decide, by norm_num, train_step_no_skip_guard 16 (-1000) (by decide) (by norm_num)⟩

/-- Helper: scipy `from_rotvec` of the zero vector is the identity. -/
theorem fromRotvec_zero : fromRotvec (0 : Vec3) = 1 := by
  have hd : dot3 (0 : Vec3) 0 = 0 := by simp [dot3]
  simp [fromRotvec, hd, Real.sqrt_zero, Real.sin_zero, Real.cos_zero]

/-- Claim C6: `orbit(dx, dy)` replaces the rotation with
`R(up, -0.05 dx°) ∘ R(side, -0.05 dy°) ∘ R_old`, where `up = (0,1,0)` and
`side` is the first column of the rotation matrix captured before the
update (not re-derived between the two incremental rotations); and
`orbit(0, 0)` leaves the rotation unchanged. -/
theorem orbit_rotation_composition (c : OrbitCamera) (dx dy : ℝ)
    (hup : c.up = ![0, 1, 0]) :
    (c.orbit dx dy).rot =
      fromRotvec (radians (-0.05 * dx) • ![0, 1, 0]) *
        fromRotvec (radians (-0.05 * dy) • fun i => c.rot i 0) * c.rot ∧
    (c.orbit 0 0).rot = c.rot := by
  constructor
  · show fromRotvec (radians (-0.05 * dx) • c.up) *
        fromRotvec (radians (-0.05 * dy) • fun i => c.rot i 0) * c.rot =
      fromRotvec (radians (-0.05 * dx) • ![0, 1, 0]) *
        fromRotvec (radians (-0.05 * dy) • fun i => c.rot i 0) * c.rot
    rw [hup]
  · show fromRotvec (radians (-0.05 * 0) • c.up) *
        fromRotvec (radians (-0.05 * 0) • fun i => c.rot i 0) * c.rot = c.rot
    have h0 : radians (-0.05 * 0) = 0 := by simp [radians]
    rw [h0]
    simp [fromRotvec_zero]

/-- Witness for `orbit_rotation_composition` at the GUI's startup camera. -/
theorem orbit_rotation_composition_witness :
    (OrbitCamera.init 512 512 3 50).up = ![0, 1, 0] ∧
      ((OrbitCamera.init 512 512 3 50).orbit 0 0).rot =
        (OrbitCamera.init 512 512 3 50).rot :=
  ⟨rfl, (orbit_rotation_composition (OrbitCamera.init 512 512 3 50) 0 0 rfl).2⟩

/-- Claim C7: `scale(delta)` multiplies the radius by `1.1^(-delta)`; for a
positive radius it strictly decreases the radius when `delta > 0`,
strictly increases it when `delta < 0`, keeps it strictly positive for
every (finite) `delta`, and `scale(1)` from radius 3 gives
`3 * 1.1⁻¹ = 30/11 ≈ 2.727`. -/
theorem scale_radius_properties (c : OrbitCamera) (delta : ℝ) (hr : 0 < c.radius) :
    (c.scale delta).radius = c.radius * (1.1 : ℝ) ^ (-delta) ∧
      (0 < delta → (c.scale delta).radius < c.radius) ∧
      (delta < 0 → c.radius < (c.scale delta).radius) ∧
      0 < (c.scale delta).radius ∧
      (c.radius = 3 → (c.scale 1).radius = 30 / 11) := by
  have hbase : (1 : ℝ) < 1.1 := by norm_num
  have hbpos : (0 : ℝ) < 1.1 := by norm_num
  refine ⟨rfl, ?_, ?_, ?_, ?_⟩
  · intro hd
    have hlt : (1.1 : ℝ) ^ (-delta) < 1 :=
      Real.rpow_lt_one_of_one_lt_of_neg hbase (by linarith)
    have hm := mul_lt_mul_of_pos_left hlt hr
    simpa [OrbitCamera.scale] using hm
  · intro hd
    have hgt : 1 < (1.1 : ℝ) ^ (-delta) :=
      (Real.one_lt_rpow_iff_of_pos hbpos).mpr (Or.inl ⟨hbase, by linarith⟩)
    have hm := mul_lt_mul_of_pos_left hgt hr
    simpa [OrbitCamera.scale] using hm
  · exact mul_pos hr (Real.rpow_pos_of_pos hbpos _)
  · intro h3
    show c.radius * (1.1 : ℝ) ^ (-(1 : ℝ)) = 30 / 11
    rw [h3, show (-(1 : ℝ)) = ((-1 : ℤ) : ℝ) by norm_num, Real.rpow_intCast]
    norm_num

/-- Witness for `scale_radius_properties` at the GUI's startup camera
(radius 3). -/
theorem scale_radius_properties_witness :
    (0 : ℝ) < (OrbitCamera.init 512 512 3 50).radius ∧
      ((OrbitCamera.init 512 512 3 50).scale 1).radius = 30 / 11 :=
  ⟨zero_lt_three,
    (scale_radius_properties (OrbitCamera.init 512 512 3 50) 1 zero_lt_three).2.2.2.2 rfl⟩

/-- Claim C10: each camera mutator changes only its own field — `scale`
leaves everything but the radius, `pan` everything but the center, and
`orbit` everything but the rotation unchanged; `fovy`, `near`, `far` and
the viewport dimensions are untouched by all three. -/
theorem camera_mutators_frame (c : OrbitCamera) (dx dy dz delta : ℝ) :
    ((c.scale delta).center = c.center ∧ (c.scale delta).rot = c.rot ∧
      (c.scale delta).fovy = c.fovy ∧ (c.scale delta).near = c.near ∧
      (c.scale delta).far = c.far ∧ (c.scale delta).W = c.W ∧
      (c.scale delta).H = c.H) ∧
    ((c.pan dx dy dz).radius = c.radius ∧ (c.pan dx dy dz).rot = c.rot ∧
      (c.pan dx dy dz).fovy = c.fovy ∧ (c.pan dx dy dz).near = c.near ∧
      (c.pan dx dy dz).far = c.far ∧ (c.pan dx dy dz).W = c.W ∧
      (c.pan dx dy dz).H = c.H) ∧
    ((c.orbit dx dy).radius = c.radius ∧ (c.orbit dx dy).center = c.center ∧
      (c.orbit dx dy).fovy = c.fovy ∧ (c.orbit dx dy).near = c.near ∧
      (c.orbit dx dy).far = c.far ∧ (c.orbit dx dy).W = c.W ∧
      (c.orbit dx dy).H = c.H) :=
  ⟨⟨rfl, rfl, rfl, rfl, rfl, rfl, rfl⟩,
   ⟨rfl, rfl, rfl, rfl, rfl, rfl, rfl⟩,
   ⟨rfl, rfl, rfl, rfl, rfl, rfl, rfl⟩⟩

/-- Translation matrices compose additively. -/
theorem transMat_mul (s t : Vec3) : transMat s * transMat t = transMat (s + t) := by
  ext i j
  fin_cases i <;> fin_cases j <;>
    simp [transMat, Matrix.mul_apply, Fin.sum_univ_four, Matrix.vecHead,
      Matrix.vecTail] <;> ring

/-- The zero translation is the identity. -/
theorem transMat_zero : transMat (0 : Vec3) = 1 := by
  ext i j
  fin_cases i <;> fin_cases j <;>
    simp [transMat, Matrix.one_apply, Matrix.vecHead, Matrix.vecTail]

/-- Embedding 3×3 matrices into homogeneous 4×4 matrices is
multiplicative. -/
theorem rot4_mul (A B : Mat3) : rot4 A * rot4 B = rot4 (A * B) := by
  ext i j
  fin_cases i <;> fin_cases j <;>
    simp [rot4, Matrix.mul_apply, Fin.sum_univ_four, Fin.sum_univ_three,
      Matrix.vecHead, Matrix.vecTail] <;> ring

/-- The embedded identity is the identity. -/
theorem rot4_one : rot4 (1 : Mat3) = 1 := by
  ext i j
  fin_cases i <;> fin_cases j <;>
    simp [rot4, Matrix.one_apply, Matrix.vecHead, Matrix.vecTail]

set_option maxHeartbeats 1000000 in
/-- The pose matrix factors as translate-by-(-center) ∘ rotate ∘
translate-along-Z. -/
theorem pose_factor (c : OrbitCamera) :
    c.pose = transMat (-c.center) * (rot4 c.rot * transZ c.radius) := by
  have hX : rot4 c.rot * transZ c.radius =
      !![c.rot 0 0, c.rot 0 1, c.rot 0 2, c.radius * c.rot 0 2;
         c.rot 1 0, c.rot 1 1, c.rot 1 2, c.radius * c.rot 1 2;
         c.rot 2 0, c.rot 2 1, c.rot 2 2, c.radius * c.rot 2 2;
         0, 0, 0, 1] := by
    ext i j
    fin_cases i <;> fin_cases j <;>
      simp [rot4, transZ, transMat, Matrix.mul_apply, Fin.sum_univ_four,
        Matrix.vecHead, Matrix.vecTail] <;> ring
  rw [OrbitCamera.pose, hX]
  ext i j
  fin_cases i <;> fin_cases j <;>
    simp [transMat, centerCol, Matrix.mul_apply, Matrix.sub_apply,
      Fin.sum_univ_four, Pi.neg_apply, Matrix.vecHead, Matrix.vecTail] <;>
    ring

/-- Claim C8: for every camera state with positive radius and orthonormal
rotation, the view matrix — `np.linalg.inv` of the pose — is a genuine
inverse: `view · pose = 1`. -/
theorem view_mul_pose (c : OrbitCamera) (hr : 0 < c.radius)
    (hR : c.rot * c.rot.transpose = 1) :
    c.view * c.pose = 1 := by
  have h2 : transZ c.radius * transZ (-c.radius) = 1 := by
    have hv : (![0, 0, c.radius] + ![0, 0, -c.radius]) = (0 : Vec3) := by
      funext i
      fin_cases i <;> simp
    rw [transZ, transZ, transMat_mul, hv, transMat_zero]
  have h1 : rot4 c.rot * rot4 c.rot.transpose = 1 := by
    rw [rot4_mul, hR, rot4_one]
  have h3 : transMat (-c.center) * transMat c.center = 1 := by
    rw [transMat_mul, neg_add_cancel, transMat_zero]
  have key : c.pose * (transZ (-c.radius) * (rot4 c.rot.transpose * transMat c.center)) = 1 := by
    rw [pose_factor, mul_assoc, mul_assoc,
      ← mul_assoc (transZ c.radius) (transZ (-c.radius)), h2, one_mul,
      ← mul_assoc (rot4 c.rot) (rot4 c.rot.transpose), h1, one_mul, h3]
  have key2 := Matrix.mul_eq_one_comm.mp key
  have hinv : c.pose⁻¹ = transZ (-c.radius) * (rot4 c.rot.transpose * transMat c.center) :=
    Matrix.inv_eq_right_inv key
  show c.pose⁻¹ * c.pose = 1
  rw [hinv]
  exact key2

/-- Witness for `view_mul_pose` at the GUI's startup camera. -/
theorem view_mul_pose_witness :
    ((0 : ℝ) < (OrbitCamera.init 512 512 3 50).radius ∧
      (OrbitCamera.init 512 512 3 50).rot * (OrbitCamera.init 512 512 3 50).rot.transpose = 1) ∧
      (OrbitCamera.init 512 512 3 50).view * (OrbitCamera.init 512 512 3 50).pose = 1 :=
  ⟨⟨zero_lt_three, by simp [OrbitCamera.init]⟩,
    view_mul_pose (OrbitCamera.init 512 512 3 50) zero_lt_three
      (by simp [OrbitCamera.init])⟩

/-- Claim C9: with `ambient_ratio = 1` the lighting factor is identically
1, so the lambertian buffer equals the albedo buffer pixel for pixel (the
two branches share the same albedo computation, gui.py lines 234-237). -/
theorem lambertian_ambient_one_eq_albedo (a x : Fin 3 → ℝ) (theta phi : ℝ) :
    lambertianModePixel 1 a x theta phi = albedoModePixel a ∧
      ∀ n l : Vec3, litFactor 1 n l = 1 := by
  constructor
  · funext i
    simp [lambertianModePixel, litFactor]
  · intro n l
    simp [litFactor]

/-- Counterexample to claim C3: the camera mutators do not reject
non-finite input.  `scale` with a NaN delta stores NaN into the radius
(here from radius 3), and `pan` with a NaN `dx` stores NaN into every
component of the center, instead of retaining the previous state. -/
theorem camera_nan_counterexample :
    scaleFloat (some 3) none ≠ some 3 ∧
      panFloat 1 (fun _ => some 0) none (some 0) (some 0) 0 ≠ some 0 := by
  constructor
  · simp [scaleFloat, fMul, fPow, fNeg, Option.map₂]
  · simp [panFloat, fAdd, fMul, fNeg, Option.map₂]

/-- Claim C3 amended: the camera operations perform no finiteness
validation; a NaN input propagates through the arithmetic into the
persistent state.  For any radius, `scale(NaN)` leaves the radius NaN,
and for any rotation and center, `pan(NaN, dy, dz)` leaves every center
component NaN — the previous values are not retained. -/
theorem camera_nan_propagation (r : ℝ) (rotM : Mat3)
    (center : Fin 3 → Option ℝ) (dy dz : Option ℝ) (i : Fin 3) :
    scaleFloat (some r) none = none ∧ panFloat rotM center none dy dz i = none := by
  constructor
  · simp [scaleFloat, fMul, fPow, fNeg, Option.map₂]
  · simp [panFloat, fAdd, fMul, fNeg, Option.map₂]

/-- Counterexample to claim C4: with no mesh loaded, the save-mesh
callback does not treat the missing mesh as nothing to do — it fails with
an AttributeError (Python attribute access on `None`). -/
theorem save_mesh_none_counterexample :
    callback_save_mesh (fun _ : Unit => ()) none =
        Except.error "AttributeError: NoneType object has no attribute write" ∧
      callback_save_mesh (fun _ : Unit => ()) none ≠ Except.ok () := by
  refine ⟨rfl, ?_⟩
  intro h
  exact Except.noConfusion h

/-- Claim C4 amended: with no mesh loaded, `test_step` is a no-op that
leaves the prior color buffer (and the dirty flag) unchanged and does not
fault, but the mesh-export callback dereferences the mesh unconditionally
and raises an AttributeError instead of treating the missing mesh as
nothing to do. -/
theorem missing_mesh_render_export {M B : Type} (render : M → B)
    (s : GuiFrame M B) (hmesh : s.mesh = none) (write : M → Unit) :
    test_step render s = s ∧
      callback_save_mesh write s.mesh =
        Except.error "AttributeError: NoneType object has no attribute write" := by
  constructor
  · unfold test_step
    rw [hmesh]
    split <;> rfl
  · rw [hmesh]
    rfl

/-- The clamped albedo lies in [0, 1]. -/
theorem clamp01_mem (x : ℝ) : 0 ≤ clamp01 x ∧ clamp01 x ≤ 1 :=
  ⟨le_min zero_le_one (le_max_left 0 x), min_le_left 1 _⟩

/-- `safe_normalize` produces a vector of squared norm at most 1, each
component bounded by 1 in square. -/
theorem safe_normalize_bounds (x : Vec3) :
    dot3 (safe_normalize x) (safe_normalize x) ≤ 1 ∧
      ∀ i, (safe_normalize x i) ^ 2 ≤ 1 := by
  have hmaxpos : (0 : ℝ) < max 1e-20 (dot3 x x) :=
    lt_of_lt_of_le (by norm_num) (le_max_left _ _)
  have hspos : 0 < Real.sqrt (max 1e-20 (dot3 x x)) := Real.sqrt_pos.mpr hmaxpos
  have hsne : Real.sqrt (max 1e-20 (dot3 x x)) ≠ 0 := ne_of_gt hspos
  have hs2 : Real.sqrt (max 1e-20 (dot3 x x)) ^ 2 = max 1e-20 (dot3 x x) :=
    Real.sq_sqrt hmaxpos.le
  have hdle : dot3 x x ≤ Real.sqrt (max 1e-20 (dot3 x x)) ^ 2 := by
    rw [hs2]
    exact le_max_right _ _
  constructor
  · have hform : dot3 (safe_normalize x) (safe_normalize x) =
        dot3 x x / Real.sqrt (max 1e-20 (dot3 x x)) ^ 2 := by
      unfold safe_normalize dot3
      simp only [Pi.smul_apply, smul_eq_mul]
      field_simp
    rw [hform, div_le_one (pow_pos hspos 2)]
    exact hdle
  · intro i
    have h0 := mul_self_nonneg (x 0)
    have h1 := mul_self_nonneg (x 1)
    have h2 := mul_self_nonneg (x 2)
    have hxi : (x i) ^ 2 ≤ dot3 x x := by
      unfold dot3
      match i with
      | ⟨0, _⟩ =>
        show (x 0) ^ 2 ≤ x 0 * x 0 + x 1 * x 1 + x 2 * x 2
        nlinarith
      | ⟨1, _⟩ =>
        show (x 1) ^ 2 ≤ x 0 * x 0 + x 1 * x 1 + x 2 * x 2
        nlinarith
      | ⟨2, _⟩ =>
        show (x 2) ^ 2 ≤ x 0 * x 0 + x 1 * x 1 + x 2 * x 2
        nlinarith
    have hform : (safe_normalize x i) ^ 2 =
        (x i) ^ 2 / Real.sqrt (max 1e-20 (dot3 x x)) ^ 2 := by
      unfold safe_normalize
      simp only [Pi.smul_apply, smul_eq_mul]
      field_simp
    rw [hform, div_le_one (pow_pos hspos 2)]
    exact hxi.trans hdle

/-- The lambertian light direction is a unit vector. -/
theorem lightDir_unit (theta phi : ℝ) :
    dot3 (lightDir theta phi) (lightDir theta phi) = 1 := by
  unfold lightDir dot3
  simp only [Matrix.cons_val_zero, Matrix.cons_val_one, Matrix.head_cons]
  have h1 := Real.sin_sq_add_cos_sq (radians theta)
  have h2 := Real.sin_sq_add_cos_sq (radians phi)
  have hv : (![Real.sin (radians theta) * Real.sin (radians phi),
      Real.cos (radians theta),
      Real.sin (radians theta) * Real.cos (radians phi)] : Vec3) 2 =
      Real.sin (radians theta) * Real.cos (radians phi) := rfl
  rw [hv]
  linear_combination (Real.sin (radians theta)) ^ 2 * h2 + h1

/-- Cauchy–Schwarz in three components: a vector of squared norm at most 1
against a unit vector has dot product at most 1. -/
theorem dot3_le_one (n l : Vec3) (hn : dot3 n n ≤ 1) (hl : dot3 l l = 1) :
    dot3 n l ≤ 1 := by
  unfold dot3 at hn hl ⊢
  nlinarith [sq_nonneg (n 0 * l 1 - n 1 * l 0), sq_nonneg (n 0 * l 2 - n 2 * l 0),
    sq_nonneg (n 1 * l 2 - n 2 * l 1),
    sq_nonneg (n 0 * l 0 + n 1 * l 1 + n 2 * l 2 - 1),
    sq_nonneg (n 0 * l 0 + n 1 * l 1 + n 2 * l 2 + 1)]

/-- The lighting factor lies in [0, 1] for an ambient ratio in [0, 1], a
normal of squared norm at most 1 and a unit light. -/
theorem litFactor_mem (ambient : ℝ) (h0 : 0 ≤ ambient) (h1 : ambient ≤ 1)
    (n l : Vec3) (hn : dot3 n n ≤ 1) (hl : dot3 l l = 1) :
    0 ≤ litFactor ambient n l ∧ litFactor ambient n l ≤ 1 := by
  have hm0 : 0 ≤ max 0 (dot3 n l) := le_max_left _ _
  have hm1 : max 0 (dot3 n l) ≤ 1 := max_le zero_le_one (dot3_le_one n l hn hl)
  unfold litFactor
  constructor
  · nlinarith
  · nlinarith

/-- With the program's startup camera (near 0.1, far 10), a point on the
near plane has clip-space depth -1. -/
theorem near_plane_clip_depth :
    clipDepth (OrbitCamera.init 512 512 3 50) ![0, 0, -0.1, 1] = -1 := by
  unfold clipDepth clipVec OrbitCamera.perspective OrbitCamera.init
  norm_num [Matrix.mulVec, Matrix.dotProduct, Fin.sum_univ_four,
    Matrix.vecHead, Matrix.vecTail]

/-- Counterexample to claim C5: at startup the buffer of gui.py line 152
is allocated with shape (W, H, 3) — for a 512×256 viewport that is not
the claimed (height, width, 3) — and in depth mode the displayed value of
a near-plane pixel is the clip-space depth -1, outside [0, 1]. -/
theorem buffer_claim_counterexample :
    render_buffer_init_shape 512 256 ≠ (256, 512, 3) ∧
      depthModePixel (clipDepth (OrbitCamera.init 512 512 3 50) ![0, 0, -0.1, 1]) 0 = -1 ∧
      ¬(0 : ℝ) ≤ -1 := by
  refine ⟨by decide, ?_, by norm_num⟩
  show clipDepth (OrbitCamera.init 512 512 3 50) ![0, 0, -0.1, 1] = -1
  exact near_plane_clip_depth

/-- Claim C5 amended: at startup the color buffer is a (W, H, 3) array of
zeros (a transposed shape that coincides with the claimed (H, W, 3) only
when W = H); a completed render produces an (H, W, 3) buffer; every pixel
value lies in [0, 1] in the albedo, normal and lambertian modes, but the
depth mode stores raw clip-space depths, which reach -1 at the near
plane. -/
theorem buffer_shape_and_range (W H : ℕ) (ambient : ℝ)
    (h0 : 0 ≤ ambient) (h1 : ambient ≤ 1)
    (a x : Fin 3 → ℝ) (theta phi : ℝ) (i : Fin 3) :
    render_buffer_init_shape W H = (W, H, 3) ∧
      render_buffer_init W H = (fun _ _ _ => 0) ∧
      rendered_buffer_shape W H = (H, W, 3) ∧
      (0 ≤ albedoModePixel a i ∧ albedoModePixel a i ≤ 1) ∧
      (0 ≤ normalModePixel x i ∧ normalModePixel x i ≤ 1) ∧
      (0 ≤ lambertianModePixel ambient a x theta phi i ∧
        lambertianModePixel ambient a x theta phi i ≤ 1) ∧
      clipDepth (OrbitCamera.init 512 512 3 50) ![0, 0, -0.1, 1] = -1 := by
  refine ⟨rfl, rfl, rfl, clamp01_mem (a i), ?_, ?_, near_plane_clip_depth⟩
  · have hb := (safe_normalize_bounds x).2 i
    have hlow : -1 ≤ safe_normalize x i := by
      nlinarith [sq_nonneg (safe_normalize x i + 1)]
    have hhigh : safe_normalize x i ≤ 1 := by
      nlinarith [sq_nonneg (safe_normalize x i - 1)]
    unfold normalModePixel
    constructor
    · linarith
    · linarith
  · have hA := clamp01_mem (a i)
    have hL := litFactor_mem ambient h0 h1 (safe_normalize x) (lightDir theta phi)
      (safe_normalize_bounds x).1 (lightDir_unit theta phi)
    unfold lambertianModePixel
    constructor
    · exact mul_nonneg hA.1 hL.1
    · calc albedoModePixel a i *
            litFactor ambient (safe_normalize x) (lightDir theta phi)
          ≤ 1 * 1 := mul_le_mul hA.2 hL.2 hL.1 zero_le_one
        _ = 1 := one_mul 1

/-- Witness for `buffer_shape_and_range` at concrete inputs. -/
theorem buffer_shape_and_range_witness :
    ((0 : ℝ) ≤ 1 / 2 ∧ (1 / 2 : ℝ) ≤ 1) ∧
      (render_buffer_init_shape 512 256 = (512, 256, 3) ∧
        rendered_buffer_shape 512 256 = (256, 512, 3)) :=
  ⟨⟨one_half_pos.le, one_half_lt_one.le⟩,
    ⟨(buffer_shape_and_range 512 256 (1 / 2) one_half_pos.le one_half_lt_one.le
        ![0, 0, 0] ![0, 0, 0] 0 0 0).1,
      (buffer_shape_and_range 512 256 (1 / 2) one_half_pos.le one_half_lt_one.le
        ![0, 0, 0] ![0, 0, 0] 0 0 0).2.2.1⟩⟩

/-- Witness for `missing_mesh_render_export` on a concrete meshless frame. -/
theorem missing_mesh_render_export_witness :
    (⟨none, 7, true⟩ : GuiFrame Unit ℕ).mesh = none ∧
      (test_step (fun _ => 0) (⟨none, 7, true⟩ : GuiFrame Unit ℕ) = ⟨none, 7, true⟩ ∧
        callback_save_mesh (fun _ => ()) (⟨none, 7, true⟩ : GuiFrame Unit ℕ).mesh =
          Except.error "AttributeError: NoneType object has no attribute write") :=
  ⟨rfl, missing_mesh_render_export (fun _ => 0) ⟨none, 7, true⟩ rfl (fun _ => ())⟩

end Drag3D
